import Mathlib

/-!
Verification of the set-algebra core of the EstructurasTaller_2 repository.

The C++ sources define a templated class `DataSet<T>` (file src/DataSet.hxx):
a named, duplicate-free sequence of elements stored in a `std::vector<T>`,
with linear-scan membership, and a registry class `DataSetCollection<T>`
(file src/DataSetCollection.hxx) storing named sets in a deque and
dispatching operations by name.

This file gives a shallow embedding of both classes in Lean.  Each C++
member function becomes a Lean function over an explicit value of the
corresponding structure; the element type `T` is a type with decidable
equality, mirroring the `operator==` requirement of the template.  Loops
that repeatedly call `insert` on a freshly constructed result set are
embedded as left folds of a conditional insert.

Important facts preserved verbatim from the sources:
  * `size()` is left unimplemented in the repository (TODO 09) and
    returns the constant `1`.
  * `powerSet()` is left unimplemented (TODO 10) and returns a result
    set with no elements.
  * `cartesianProductWith()` is left unimplemented (TODO 11) and returns
    a result set with no elements.
-/

set_option autoImplicit false

universe u v

/-- Embedding of the C++ class `DataSet<T>`: a display name and the
`std::vector<T> elements` field, modelled as a list. -/
structure DataSet (T : Type u) where
  name : String
  elements : List T
deriving DecidableEq

namespace DataSet

variable {T : Type u}

/-- The constructor `DataSet(const std::string&)`: a named empty set. -/
def ofName (nm : String) : DataSet T :=
  { name := nm, elements := [] }

/-- Member function `getName()`. -/
def getName (s : DataSet T) : String :=
  s.name

/-- Member function `getElements()`: a value copy of the stored vector. -/
def getElements (s : DataSet T) : List T :=
  s.elements

/-- Member function `contains(value)`: linear scan of `elements` comparing with
`operator==`, returning true on the first hit. -/
def contains [DecidableEq T] (s : DataSet T) (v : T) : Bool :=
  s.elements.any (fun x => x == v)

/-- Member function `insert(value)`: `push_back` the value onto `elements` when
`contains(value)` is false, otherwise leave the set unchanged. -/
def insert [DecidableEq T] (s : DataSet T) (v : T) : DataSet T :=
  if s.contains v then s else { s with elements := s.elements ++ [v] }

/-- A loop of the shape `for v in l: if p v then result.insert(v)`,
shared by the bodies of the binary algebraic operations. -/
def insertWhere [DecidableEq T] (p : T → Bool) (s : DataSet T) (l : List T) : DataSet T :=
  l.foldl (fun r v => if p v then r.insert v else r) s

/-- A loop of the shape `for v in l: result.insert(v)`, as in the two
loops of `unionWith`. -/
def insertAll [DecidableEq T] (s : DataSet T) (l : List T) : DataSet T :=
  l.foldl (fun r v => r.insert v) s

/-- Member function `unionWith(other)`: insert every element of `this`, then every
element of `other`, into a fresh result set. -/
def unionWith [DecidableEq T] (a b : DataSet T) : DataSet T :=
  insertAll (insertAll (ofName (a.getName ++ " ∪ " ++ b.getName)) a.elements) b.elements

/-- Member function `intersectionWith(other)`: insert the elements of `this` that
`other.contains` into a fresh result set. -/
def intersectionWith [DecidableEq T] (a b : DataSet T) : DataSet T :=
  insertWhere (fun v => b.contains v) (ofName (a.getName ++ " ∩ " ++ b.getName)) a.elements

/-- Member function `differenceWith(other)`: insert the elements of `this` that `other`
does not contain into a fresh result set. -/
def differenceWith [DecidableEq T] (a b : DataSet T) : DataSet T :=
  insertWhere (fun v => !(b.contains v)) (ofName (a.getName ++ "-" ++ b.getName)) a.elements

/-- Member function `symmetricDifferenceWith(other)`: elements of `this` not in `other`
first, then elements of `other` not in `this`. -/
def symmetricDifferenceWith [DecidableEq T] (a b : DataSet T) : DataSet T :=
  insertWhere (fun v => !(a.contains v))
    (insertWhere (fun v => !(b.contains v))
      (ofName (a.getName ++ " symmetric_difference " ++ b.getName)) a.elements)
    b.elements

/-- Member function `isSubsetOf(other)`: every element of `this` satisfies
`other.contains`. -/
def isSubsetOf [DecidableEq T] (a b : DataSet T) : Bool :=
  a.elements.all (fun v => b.contains v)

/-- Member function `isEqualTo(other)`: double inclusion. -/
def isEqualTo [DecidableEq T] (a b : DataSet T) : Bool :=
  a.isSubsetOf b && b.isSubsetOf a

/-- Member function `size()`: the repository leaves TODO 09 unimplemented and the
function returns the constant `1`, ignoring `elements`. -/
def size (_ : DataSet T) : Nat :=
  1

/-- Member function `powerSet()`: the repository leaves TODO 10 unimplemented; the
function returns the freshly named result set with no elements. -/
def powerSet (a : DataSet T) : DataSet (DataSet T) :=
  ofName (a.getName ++ " Power Set")

/-- Member function `cartesianProductWith(other)`: the repository leaves TODO 11
unimplemented; the function returns the freshly named result set with
no elements. -/
def cartesianProductWith (a b : DataSet T) : DataSet (T × T) :=
  ofName (a.getName ++ " × " ++ b.getName)

/-- Member function `print(os)`: renders `name = \x7be1, e2, ...\x7d` when the name is
nonempty, else just the braced element list; the element renderer stands
for `operator<<` on `T`. -/
def printToString (s : DataSet T) (f : T → String) : String :=
  (if s.name ≠ "" then s.name ++ " = " else "")
    ++ "\x7b" ++ String.intercalate ", " (s.elements.map f) ++ "\x7d"

/-! ### Basic lemmas about membership and insertion -/

theorem contains_iff [DecidableEq T] (s : DataSet T) (v : T) :
    s.contains v = true ↔ v ∈ s.elements := by
  simp [contains, List.any_eq_true, beq_iff_eq]

theorem contains_eq_false_iff [DecidableEq T] (s : DataSet T) (v : T) :
    s.contains v = false ↔ v ∉ s.elements := by
  rw [← Bool.not_eq_true, not_iff_not, contains_iff]

theorem insert_of_mem [DecidableEq T] (s : DataSet T) (v : T)
    (h : v ∈ s.elements) : s.insert v = s := by
  rw [insert, if_pos ((contains_iff s v).mpr h)]

theorem insert_of_not_mem [DecidableEq T] (s : DataSet T) (v : T)
    (h : v ∉ s.elements) : s.insert v = { s with elements := s.elements ++ [v] } := by
  rw [insert, if_neg]
  intro hc
  exact h ((contains_iff s v).mp hc)

theorem mem_insert [DecidableEq T] (s : DataSet T) (v x : T) :
    x ∈ (s.insert v).elements ↔ x ∈ s.elements ∨ x = v := by
  by_cases h : v ∈ s.elements
  · rw [insert_of_mem s v h]
    constructor
    · exact Or.inl
    · rintro (hx | rfl)
      · exact hx
      · exact h
  · rw [insert_of_not_mem s v h]
    simp [List.mem_append]

theorem nodup_insert [DecidableEq T] (s : DataSet T) (v : T)
    (h : s.elements.Nodup) : (s.insert v).elements.Nodup := by
  by_cases hv : v ∈ s.elements
  · rw [insert_of_mem s v hv]; exact h
  · rw [insert_of_not_mem s v hv]
    simpa [List.nodup_append] using ⟨h, hv⟩

theorem isSubsetOf_iff [DecidableEq T] (a b : DataSet T) :
    a.isSubsetOf b = true ↔ ∀ x ∈ a.elements, x ∈ b.elements := by
  simp only [isSubsetOf, List.all_eq_true]
  constructor
  · intro h x hx
    exact (contains_iff b x).mp (h x hx)
  · intro h x hx
    exact (contains_iff b x).mpr (h x hx)

theorem isEqualTo_iff [DecidableEq T] (a b : DataSet T) :
    a.isEqualTo b = true ↔ ∀ x, x ∈ a.elements ↔ x ∈ b.elements := by
  rw [isEqualTo, Bool.and_eq_true, isSubsetOf_iff, isSubsetOf_iff]
  constructor
  · intro h x
    exact ⟨fun hx => h.1 x hx, fun hx => h.2 x hx⟩
  · intro h
    exact ⟨fun x hx => (h x).mp hx, fun x hx => (h x).mpr hx⟩

/-! ### Characterisation of the insertion loops

`newElems p seen l` is the sequence of elements that a loop
`for v in l: if p v then result.insert v` appends to a result set whose
current element list is `seen`: the elements of `l` that satisfy `p` and
are not already present, each kept at its first occurrence, in order.
This is exactly the first-seen order the specification describes for the
second phase of `unionWith`. -/

def newElems [DecidableEq T] (p : T → Bool) (seen : List T) : List T → List T
  | [] => []
  | x :: xs =>
    if p x = true ∧ x ∉ seen then x :: newElems p (seen ++ [x]) xs
    else newElems p seen xs

theorem mem_newElems [DecidableEq T] (p : T → Bool) (l : List T) :
    ∀ (seen : List T) (x : T),
      x ∈ newElems p seen l ↔ x ∈ l ∧ p x = true ∧ x ∉ seen := by
  induction l with
  | nil => intro seen x; simp [newElems]
  | cons y ys ih =>
    intro seen x
    rw [newElems]
    by_cases hy : p y = true ∧ y ∉ seen
    · rw [if_pos hy, List.mem_cons, ih (seen ++ [y]) x]
      by_cases hxy : x = y
      · subst hxy
        simp [hy.1, hy.2]
      · simp only [List.mem_append, List.mem_singleton, List.mem_cons]
        constructor
        · rintro (rfl | ⟨hmem, hp, hseen⟩)
          · exact absurd rfl hxy
          · refine ⟨Or.inr hmem, hp, fun hx => hseen (Or.inl hx)⟩
        · rintro ⟨rfl | hmem, hp, hseen⟩
          · exact absurd rfl hxy
          · refine Or.inr ⟨hmem, hp, fun hx => ?_⟩
            rcases hx with hx | hx | hx
            · exact hseen hx
            · exact hxy hx
            · exact absurd hx (List.not_mem_nil x)
    · rw [if_neg hy, ih seen x, List.mem_cons]
      constructor
      · rintro ⟨hmem, hp, hseen⟩
        exact ⟨Or.inr hmem, hp, hseen⟩
      · rintro ⟨rfl | hmem, hp, hseen⟩
        · exact absurd ⟨hp, hseen⟩ hy
        · exact ⟨hmem, hp, hseen⟩

theorem nodup_newElems [DecidableEq T] (p : T → Bool) (l : List T) :
    ∀ seen : List T, (newElems p seen l).Nodup := by
  induction l with
  | nil => intro seen; simp [newElems]
  | cons y ys ih =>
    intro seen
    rw [newElems]
    by_cases hy : p y = true ∧ y ∉ seen
    · rw [if_pos hy]
      refine List.Nodup.cons ?_ (ih (seen ++ [y]))
      intro hmem
      have h := (mem_newElems p ys (seen ++ [y]) y).mp hmem
      exact h.2.2 (List.mem_append.mpr (Or.inr (List.mem_singleton.mpr rfl)))
    · rw [if_neg hy]; exact ih seen

theorem newElems_of_nodup [DecidableEq T] (l : List T) :
    ∀ seen : List T, l.Nodup → (∀ x ∈ l, x ∉ seen) →
      newElems (fun _ => true) seen l = l := by
  induction l with
  | nil => intro seen _ _; rfl
  | cons y ys ih =>
    intro seen hnd hdisj
    rw [newElems, if_pos ⟨rfl, hdisj y (List.mem_cons_self y ys)⟩]
    congr 1
    refine ih (seen ++ [y]) (List.Nodup.of_cons hnd) ?_
    intro x hx hmem
    rcases List.mem_append.mp hmem with h | h
    · exact hdisj x (List.mem_cons_of_mem y hx) h
    · rw [List.mem_singleton] at h
      subst h
      exact (List.nodup_cons.mp hnd).1 hx

theorem elements_insertWhere [DecidableEq T] (p : T → Bool) (l : List T) :
    ∀ s : DataSet T,
      (insertWhere p s l).elements = s.elements ++ newElems p s.elements l := by
  induction l with
  | nil => intro s; simp [insertWhere, newElems]
  | cons y ys ih =>
    intro s
    rw [insertWhere, List.foldl_cons, newElems]
    by_cases hy : p y = true ∧ y ∉ s.elements
    · rw [if_pos hy.1, if_pos hy, insert_of_not_mem s y hy.2]
      have h := ih { s with elements := s.elements ++ [y] }
      rw [insertWhere] at h
      rw [h, List.append_assoc]
      rfl
    · by_cases hp : p y = true
      · have hmem : y ∈ s.elements := by
          by_contra hne
          exact hy ⟨hp, hne⟩
        rw [if_pos hp, if_neg hy, insert_of_mem s y hmem]
        have h := ih s
        rw [insertWhere] at h
        exact h
      · rw [if_neg hp, if_neg hy]
        have h := ih s
        rw [insertWhere] at h
        exact h

theorem insertAll_eq_insertWhere [DecidableEq T] (s : DataSet T) (l : List T) :
    insertAll s l = insertWhere (fun _ => true) s l :=
  rfl

theorem elements_insertAll [DecidableEq T] (s : DataSet T) (l : List T) :
    (insertAll s l).elements = s.elements ++ newElems (fun _ => true) s.elements l := by
  rw [insertAll_eq_insertWhere, elements_insertWhere]

theorem mem_insertWhere [DecidableEq T] (p : T → Bool) (s : DataSet T) (l : List T) (x : T) :
    x ∈ (insertWhere p s l).elements ↔ x ∈ s.elements ∨ (x ∈ l ∧ p x = true) := by
  rw [elements_insertWhere, List.mem_append, mem_newElems]
  by_cases hs : x ∈ s.elements
  · simp [hs]
  · simp [hs]

theorem nodup_insertWhere [DecidableEq T] (p : T → Bool) (s : DataSet T) (l : List T)
    (h : s.elements.Nodup) : (insertWhere p s l).elements.Nodup := by
  rw [elements_insertWhere, List.nodup_append]
  refine ⟨h, nodup_newElems p l s.elements, ?_⟩
  intro x hx hmem
  exact ((mem_newElems p l s.elements x).mp hmem).2.2 hx

/-! ### Membership and duplicate-freeness of the algebraic operations -/

theorem nodup_ofName (nm : String) : (ofName nm : DataSet T).elements.Nodup :=
  List.nodup_nil

theorem mem_unionWith [DecidableEq T] (a b : DataSet T) (x : T) :
    x ∈ (a.unionWith b).elements ↔ x ∈ a.elements ∨ x ∈ b.elements := by
  rw [unionWith, insertAll_eq_insertWhere, mem_insertWhere,
    insertAll_eq_insertWhere, mem_insertWhere]
  simp [ofName]

theorem mem_intersectionWith [DecidableEq T] (a b : DataSet T) (x : T) :
    x ∈ (a.intersectionWith b).elements ↔ x ∈ a.elements ∧ x ∈ b.elements := by
  rw [intersectionWith, mem_insertWhere]
  simp [ofName, contains_iff]

theorem mem_differenceWith [DecidableEq T] (a b : DataSet T) (x : T) :
    x ∈ (a.differenceWith b).elements ↔ x ∈ a.elements ∧ x ∉ b.elements := by
  rw [differenceWith, mem_insertWhere]
  simp [ofName, Bool.not_eq_true', contains_eq_false_iff]

theorem mem_symmetricDifferenceWith [DecidableEq T] (a b : DataSet T) (x : T) :
    x ∈ (a.symmetricDifferenceWith b).elements ↔
      (x ∈ a.elements ∧ x ∉ b.elements) ∨ (x ∈ b.elements ∧ x ∉ a.elements) := by
  rw [symmetricDifferenceWith, mem_insertWhere, mem_insertWhere]
  simp [ofName, Bool.not_eq_true', contains_eq_false_iff]

theorem nodup_unionWith [DecidableEq T] (a b : DataSet T) :
    (a.unionWith b).elements.Nodup := by
  rw [unionWith, insertAll_eq_insertWhere, insertAll_eq_insertWhere]
  exact nodup_insertWhere _ _ _ (nodup_insertWhere _ _ _ (nodup_ofName _))

theorem nodup_intersectionWith [DecidableEq T] (a b : DataSet T) :
    (a.intersectionWith b).elements.Nodup :=
  nodup_insertWhere _ _ _ (nodup_ofName _)

theorem nodup_differenceWith [DecidableEq T] (a b : DataSet T) :
    (a.differenceWith b).elements.Nodup :=
  nodup_insertWhere _ _ _ (nodup_ofName _)

theorem nodup_symmetricDifferenceWith [DecidableEq T] (a b : DataSet T) :
    (a.symmetricDifferenceWith b).elements.Nodup :=
  nodup_insertWhere _ _ _ (nodup_insertWhere _ _ _ (nodup_ofName _))

end DataSet

/-- The two kinds of `std::runtime_error` the collection throws,
distinguished by their message site: the not-found lookup failures and
the unrecognized operation keywords. -/
inductive CollErr where
  | notFound : String → CollErr
  | unsupportedOperation : String → CollErr
deriving DecidableEq

/-- True exactly on a successful (non-throwing) call. -/
def resultOk {E : Type v} {α : Type u} : Except E α → Bool
  | Except.ok _ => true
  | Except.error _ => false

/-- True exactly when the call threw the not-found error. -/
def resultNotFound {α : Type u} : Except CollErr α → Bool
  | Except.error (CollErr.notFound _) => true
  | _ => false

/-- True exactly when the call threw the unsupported-operation error. -/
def resultUnsupported {α : Type u} : Except CollErr α → Bool
  | Except.error (CollErr.unsupportedOperation _) => true
  | _ => false

/-- Embedding of the C++ class `DataSetCollection<T>`: the deque of
named sets, modelled as a list. -/
structure DataSetCollection (T : Type u) where
  sets : List (DataSet T)

namespace DataSetCollection

variable {T : Type u}

/-- Member function `findIndexByName(name)`: index of the first set with the given
name, or `-1` when no set matches. -/
def findIndexByName (c : DataSetCollection T) (name : String) : Int :=
  match c.sets.findIdx? (fun s => s.name == name) with
  | some i => (i : Int)
  | none => -1

/-- Member function `hasSet(name)`: `findIndexByName(name) != -1`. -/
def hasSet (c : DataSetCollection T) (name : String) : Bool :=
  findIndexByName c name != -1

/-- The set stored at the index found for `name`; the lookup in the
throwing member functions after the `-1` check. -/
def setAt (c : DataSetCollection T) (i : Nat) : DataSet T :=
  c.sets.getD i (DataSet.ofName "")

/-- Member function `getSet(name)`: a copy of the named set, or a thrown not-found
error. -/
def getSet (c : DataSetCollection T) (name : String) : Except CollErr (DataSet T) :=
  match c.sets.findIdx? (fun s => s.name == name) with
  | none => Except.error (CollErr.notFound ("Set '" ++ name ++ "' not found."))
  | some i => Except.ok (setAt c i)

/-- Member function `insertInto(name, value)`: insert into the named set in place, or a
thrown not-found error; state passing makes the mutation explicit. -/
def insertInto [DecidableEq T] (c : DataSetCollection T) (name : String) (v : T) :
    Except CollErr (DataSetCollection T) :=
  match c.sets.findIdx? (fun s => s.name == name) with
  | none => Except.error (CollErr.notFound ("Set '" ++ name ++ "' not found."))
  | some i => Except.ok { sets := c.sets.set i ((setAt c i).insert v) }

/-- Member function `printSet(name)`: prints a diagnostic to stderr when the name is
missing and returns normally; otherwise prints the set.  The returned
string is the text emitted; no exception is ever thrown and the stored
sets are untouched (the member function is const). -/
def printSet (c : DataSetCollection T) (name : String) (f : T → String) :
    Except CollErr String :=
  match c.sets.findIdx? (fun s => s.name == name) with
  | none => Except.ok ("Set '" ++ name ++ "' not found.")
  | some i => Except.ok ((setAt c i).printToString f)

/-- The keyword dispatch of `operate`: the four recognized binary
operation keywords. -/
def isBinaryKeyword (op : String) : Bool :=
  decide (op = "union" ∨ op = "intersection" ∨ op = "difference" ∨
    op = "symmetric_difference")

/-- Member function `operate(nameA, op, nameB)`: resolve both operands with `getSet`,
dispatch on the keyword, throw on an unrecognized keyword, and rewrite
the result name to `(nameA op nameB)`. -/
def operate [DecidableEq T] (c : DataSetCollection T)
    (nameA op nameB : String) : Except CollErr (DataSet T) :=
  match getSet c nameA with
  | Except.error e => Except.error e
  | Except.ok A =>
    match getSet c nameB with
    | Except.error e => Except.error e
    | Except.ok B =>
      (if op = "union" then Except.ok (A.unionWith B)
       else if op = "intersection" then Except.ok (A.intersectionWith B)
       else if op = "difference" then Except.ok (A.differenceWith B)
       else if op = "symmetric_difference" then Except.ok (A.symmetricDifferenceWith B)
       else Except.error (CollErr.unsupportedOperation ("Invalid operation: '" ++ op ++ "'"))).map
        (fun r => { r with name := "(" ++ nameA ++ " " ++ op ++ " " ++ nameB ++ ")" })

/-- Member function `operateUnarySet(name, op)`: resolve the operand, recognize only
the keyword `powerset`. -/
def operateUnarySet [DecidableEq T] (c : DataSetCollection T)
    (name op : String) : Except CollErr (DataSet (DataSet T)) :=
  match getSet c name with
  | Except.error e => Except.error e
  | Except.ok A =>
    if op = "powerset" then Except.ok A.powerSet
    else Except.error (CollErr.unsupportedOperation ("Unsupported unary operation: '" ++ op ++ "'"))

/-- Member function `cartesianProduct(nameA, nameB)`: resolve both operands and return
their Cartesian product. -/
def cartesianProduct [DecidableEq T] (c : DataSetCollection T)
    (nameA nameB : String) : Except CollErr (DataSet (T × T)) :=
  match getSet c nameA with
  | Except.error e => Except.error e
  | Except.ok A =>
    match getSet c nameB with
    | Except.error e => Except.error e
    | Except.ok B => Except.ok (A.cartesianProductWith B)

/-! ### Lookup lemmas -/

theorem hasSet_eq_isSome (c : DataSetCollection T) (name : String) :
    hasSet c name = (c.sets.findIdx? (fun s => s.name == name)).isSome := by
  rw [hasSet, findIndexByName]
  cases h : c.sets.findIdx? (fun s => s.name == name) with
  | none => rfl
  | some i =>
    simp only [Option.isSome_some, bne_iff_ne, ne_eq, decide_eq_true_eq]
    omega

end DataSetCollection

/-! ## Claim theorems -/

/-- Claim C1: the specification requires `size()` to return exactly the
number of stored elements (0 when fresh, +1 per insert of an absent
value).  The code leaves TODO 09 unimplemented and returns the constant
1: for every set the reported size is 1; a freshly constructed set
reports 1 instead of 0, and inserting an absent value does not change
the report. -/
theorem size_unimplemented_returns_one :
    (∀ a : DataSet Nat, a.size = 1)
    ∧ (DataSet.ofName "A" : DataSet Nat).size ≠ (DataSet.ofName "A" : DataSet Nat).elements.length
    ∧ ((DataSet.ofName "A" : DataSet Nat).insert 7).size ≠ (DataSet.ofName "A" : DataSet Nat).size + 1 := by
  refine ⟨fun a => rfl, ?_, ?_⟩ <;> decide

/-- Claim C2: the specification requires `powerSet()` to return all
2 ^ n subsets, including the empty set and the set itself.  The code
leaves TODO 10 unimplemented: the result set has no elements at all,
so its cardinality is never 2 ^ n (in particular, for the empty input
set the power set is empty rather than the singleton of the empty
set). -/
theorem powerSet_unimplemented_returns_empty :
    (∀ a : DataSet Nat, a.powerSet.elements = [])
    ∧ (DataSet.ofName "E" : DataSet Nat).powerSet.elements.length ≠
        2 ^ (DataSet.ofName "E" : DataSet Nat).elements.length := by
  refine ⟨fun a => rfl, ?_⟩
  decide

/-- Claim C3: the specification requires `cartesianProductWith` to
return all m * n ordered pairs in row-major order.  The code leaves
TODO 11 unimplemented: the result set has no elements, so already for
the singleton sets A = \x7b1\x7d and B = \x7b2\x7d the pair (1, 2) is
missing and the cardinality is 0 instead of 1. -/
theorem cartesianProduct_unimplemented_returns_empty :
    (∀ a b : DataSet Nat, (a.cartesianProductWith b).elements = [])
    ∧ ((⟨"A", [1]⟩ : DataSet Nat).cartesianProductWith (⟨"B", [2]⟩ : DataSet Nat)).elements.length ≠
        (⟨"A", [1]⟩ : DataSet Nat).elements.length * (⟨"B", [2]⟩ : DataSet Nat).elements.length := by
  refine ⟨fun a b => rfl, ?_⟩
  decide

/-- Claim C4: the specification requires `A.differenceWith(A).size()`
to be 0.  The difference of a set with itself does have an empty
element list, but `size()` (TODO 09 unimplemented) reports the constant
1, so the call returns 1, not 0. -/
theorem differenceWith_self_empty_but_size_one :
    (∀ a : DataSet Nat, (a.differenceWith a).elements = [] ∧ (a.differenceWith a).size = 1)
    ∧ ((DataSet.ofName "A" : DataSet Nat).differenceWith (DataSet.ofName "A")).size ≠ 0 := by
  refine ⟨fun a => ⟨?_, rfl⟩, by decide⟩
  rw [List.eq_nil_iff_forall_not_mem]
  intro x
  rw [DataSet.mem_differenceWith]
  rintro ⟨h1, h2⟩
  exact h2 h1

/-- Claim C5: after `A.insert(v)` the set contains `v` and the reported
size grew by at most 1; inserting an already present value returns the
set completely unchanged (no error, no other effect). -/
theorem insert_contract {T : Type u} [DecidableEq T] (A : DataSet T) (v : T) :
    (A.insert v).contains v = true
    ∧ (A.insert v).size ≤ A.size + 1
    ∧ (A.contains v = true → A.insert v = A) := by
  refine ⟨?_, ?_, ?_⟩
  · rw [DataSet.contains_iff, DataSet.mem_insert]
    exact Or.inr rfl
  · rw [DataSet.size, DataSet.size]
    omega
  · intro h
    rw [DataSet.insert, if_pos h]

/-- Witness for C5 at the concrete set \x7b5\x7d and the already
present value 5. -/
theorem insert_contract_witness :
    ((⟨"A", [5]⟩ : DataSet Nat).insert 5).contains 5 = true
    ∧ ((⟨"A", [5]⟩ : DataSet Nat).insert 5).size ≤ (⟨"A", [5]⟩ : DataSet Nat).size + 1
    ∧ (⟨"A", [5]⟩ : DataSet Nat).insert 5 = (⟨"A", [5]⟩ : DataSet Nat) :=
  ⟨(insert_contract (⟨"A", [5]⟩ : DataSet Nat) 5).1,
   (insert_contract (⟨"A", [5]⟩ : DataSet Nat) 5).2.1,
   (insert_contract (⟨"A", [5]⟩ : DataSet Nat) 5).2.2 (by decide)⟩

/-- Claim C6: `unionWith` contains every element of both operands, each
exactly once, and its element list is deterministic: the elements of
the left operand first, in stored order, followed by the elements of
the right operand not already present, at their first occurrence.  The
hypothesis is the duplicate-freeness invariant of the left operand,
which every set built through the public interface satisfies. -/
theorem unionWith_spec {T : Type u} [DecidableEq T] (a b : DataSet T)
    (h : a.elements.Nodup) :
    (a.unionWith b).elements =
      a.elements ++ DataSet.newElems (fun _ => true) a.elements b.elements
    ∧ (a.unionWith b).elements.Nodup
    ∧ (a.unionWith b).elements.toFinset = a.elements.toFinset ∪ b.elements.toFinset := by
  refine ⟨?_, DataSet.nodup_unionWith a b, ?_⟩
  · have h1 : (DataSet.insertAll
        (DataSet.ofName (a.getName ++ " ∪ " ++ b.getName)) a.elements).elements
        = a.elements := by
      rw [DataSet.elements_insertAll]
      have h2 : (DataSet.ofName (a.getName ++ " ∪ " ++ b.getName) : DataSet T).elements = [] := rfl
      rw [h2, List.nil_append]
      exact DataSet.newElems_of_nodup a.elements [] h (fun x _ => List.not_mem_nil x)
    rw [DataSet.unionWith, DataSet.elements_insertAll, h1]
  · ext x
    rw [List.mem_toFinset, DataSet.mem_unionWith, Finset.mem_union,
      List.mem_toFinset, List.mem_toFinset]

/-- Witness for C6 at A = \x7b1, 2\x7d and B = \x7b2, 3\x7d. -/
theorem unionWith_spec_witness :
    (⟨"A", [1, 2]⟩ : DataSet Nat).elements.Nodup
    ∧ (((⟨"A", [1, 2]⟩ : DataSet Nat).unionWith (⟨"B", [2, 3]⟩ : DataSet Nat)).elements =
        (⟨"A", [1, 2]⟩ : DataSet Nat).elements ++
          DataSet.newElems (fun _ => true) (⟨"A", [1, 2]⟩ : DataSet Nat).elements
            (⟨"B", [2, 3]⟩ : DataSet Nat).elements
      ∧ ((⟨"A", [1, 2]⟩ : DataSet Nat).unionWith (⟨"B", [2, 3]⟩ : DataSet Nat)).elements.Nodup
      ∧ ((⟨"A", [1, 2]⟩ : DataSet Nat).unionWith (⟨"B", [2, 3]⟩ : DataSet Nat)).elements.toFinset =
          (⟨"A", [1, 2]⟩ : DataSet Nat).elements.toFinset ∪
            (⟨"B", [2, 3]⟩ : DataSet Nat).elements.toFinset) :=
  ⟨by decide,
   unionWith_spec (⟨"A", [1, 2]⟩ : DataSet Nat) (⟨"B", [2, 3]⟩ : DataSet Nat) (by decide)⟩

/-- Claim C7: the symmetric difference equals the union minus the
intersection, under the double-inclusion equality `isEqualTo`. -/
theorem symmetricDifference_eq_union_minus_intersection {T : Type u} [DecidableEq T]
    (a b : DataSet T) :
    (a.symmetricDifferenceWith b).isEqualTo
      ((a.unionWith b).differenceWith (a.intersectionWith b)) = true := by
  rw [DataSet.isEqualTo_iff]
  intro x
  rw [DataSet.mem_symmetricDifferenceWith, DataSet.mem_differenceWith,
    DataSet.mem_unionWith, DataSet.mem_intersectionWith]
  tauto

/-- Claim C9: duplicate-freeness invariant.  A freshly constructed set
has no duplicates; `insert` preserves duplicate-freeness; and the
result of every algebraic operation is duplicate-free (unconditionally,
since each result is built by repeated duplicate-checking inserts into
a fresh set, and the unimplemented power set and Cartesian product
return sets with no elements). -/
theorem dataSet_nodup_invariant {T : Type u} [DecidableEq T] (nm : String)
    (a b : DataSet T) (v : T) (h : a.elements.Nodup) :
    (DataSet.ofName nm : DataSet T).elements.Nodup
    ∧ (a.insert v).elements.Nodup
    ∧ (a.unionWith b).elements.Nodup
    ∧ (a.intersectionWith b).elements.Nodup
    ∧ (a.differenceWith b).elements.Nodup
    ∧ (a.symmetricDifferenceWith b).elements.Nodup
    ∧ a.powerSet.elements.Nodup
    ∧ (a.cartesianProductWith b).elements.Nodup :=
  ⟨DataSet.nodup_ofName nm,
   DataSet.nodup_insert a v h,
   DataSet.nodup_unionWith a b,
   DataSet.nodup_intersectionWith a b,
   DataSet.nodup_differenceWith a b,
   DataSet.nodup_symmetricDifferenceWith a b,
   List.nodup_nil,
   List.nodup_nil⟩

/-- Witness for C9 at A = \x7b1, 2\x7d, B = \x7b2, 3\x7d, value 9. -/
theorem dataSet_nodup_invariant_witness :
    (⟨"A", [1, 2]⟩ : DataSet Nat).elements.Nodup
    ∧ ((DataSet.ofName "S" : DataSet Nat).elements.Nodup
      ∧ ((⟨"A", [1, 2]⟩ : DataSet Nat).insert 9).elements.Nodup
      ∧ ((⟨"A", [1, 2]⟩ : DataSet Nat).unionWith (⟨"B", [2, 3]⟩ : DataSet Nat)).elements.Nodup
      ∧ ((⟨"A", [1, 2]⟩ : DataSet Nat).intersectionWith (⟨"B", [2, 3]⟩ : DataSet Nat)).elements.Nodup
      ∧ ((⟨"A", [1, 2]⟩ : DataSet Nat).differenceWith (⟨"B", [2, 3]⟩ : DataSet Nat)).elements.Nodup
      ∧ ((⟨"A", [1, 2]⟩ : DataSet Nat).symmetricDifferenceWith (⟨"B", [2, 3]⟩ : DataSet Nat)).elements.Nodup
      ∧ (⟨"A", [1, 2]⟩ : DataSet Nat).powerSet.elements.Nodup
      ∧ ((⟨"A", [1, 2]⟩ : DataSet Nat).cartesianProductWith (⟨"B", [2, 3]⟩ : DataSet Nat)).elements.Nodup) :=
  ⟨by decide,
   dataSet_nodup_invariant "S" (⟨"A", [1, 2]⟩ : DataSet Nat) (⟨"B", [2, 3]⟩ : DataSet Nat) 9
     (by decide)⟩

/-- Claim C10: for an unregistered name, `printSet` does not throw: it
returns normally having only emitted the not-found diagnostic (the
member function is const, so the stored sets are untouched), whereas
`getSet` throws the not-found error on the same input. -/
theorem printSet_missing_name_is_benign {T : Type u} (c : DataSetCollection T)
    (n : String) (f : T → String) (h : c.hasSet n = false) :
    c.printSet n f = Except.ok ("Set '" ++ n ++ "' not found.")
    ∧ c.getSet n = Except.error (CollErr.notFound ("Set '" ++ n ++ "' not found.")) := by
  have hnone : c.sets.findIdx? (fun s => s.name == n) = none := by
    rw [DataSetCollection.hasSet_eq_isSome] at h
    exact Option.not_isSome_iff_eq_none.mp (by simp [h])
  constructor
  · rw [DataSetCollection.printSet, hnone]
  · rw [DataSetCollection.getSet, hnone]

/-- Witness for C10 at the empty collection and the name X. -/
theorem printSet_missing_name_is_benign_witness :
    (DataSetCollection.mk ([] : List (DataSet Nat))).hasSet "X" = false
    ∧ ((DataSetCollection.mk ([] : List (DataSet Nat))).printSet "X" (fun k => toString k) =
        Except.ok ("Set '" ++ "X" ++ "' not found.")
      ∧ (DataSetCollection.mk ([] : List (DataSet Nat))).getSet "X" =
          Except.error (CollErr.notFound ("Set '" ++ "X" ++ "' not found."))) :=
  ⟨by decide,
   printSet_missing_name_is_benign (DataSetCollection.mk ([] : List (DataSet Nat))) "X"
     (fun k => toString k) (by decide)⟩

/-- Claim C8: classification of the errors of the collection calls.
Each lookup-based call throws the not-found error exactly when a
referenced name is not registered; with both operand names registered,
`operate` throws the unsupported-operation error exactly when the
keyword is not one of the four binary algebra keywords, and
`operateUnarySet` exactly when the keyword is not `powerset`; with all
names registered and the keyword recognized, every call returns
without error. -/
theorem collection_error_classification {T : Type u} [DecidableEq T]
    (c : DataSetCollection T) (n nameA nameB op : String) (v : T) :
    resultOk (c.getSet n) = c.hasSet n
    ∧ resultNotFound (c.getSet n) = !c.hasSet n
    ∧ resultOk (c.insertInto n v) = c.hasSet n
    ∧ resultNotFound (c.insertInto n v) = !c.hasSet n
    ∧ resultOk (c.cartesianProduct nameA nameB) = (c.hasSet nameA && c.hasSet nameB)
    ∧ resultNotFound (c.cartesianProduct nameA nameB) = (!c.hasSet nameA || !c.hasSet nameB)
    ∧ resultOk (c.operate nameA op nameB) =
        (c.hasSet nameA && c.hasSet nameB && DataSetCollection.isBinaryKeyword op)
    ∧ resultNotFound (c.operate nameA op nameB) = (!c.hasSet nameA || !c.hasSet nameB)
    ∧ resultUnsupported (c.operate nameA op nameB) =
        (c.hasSet nameA && c.hasSet nameB && !DataSetCollection.isBinaryKeyword op)
    ∧ resultOk (c.operateUnarySet n op) = (c.hasSet n && (op == "powerset"))
    ∧ resultNotFound (c.operateUnarySet n op) = !c.hasSet n
    ∧ resultUnsupported (c.operateUnarySet n op) = (c.hasSet n && !(op == "powerset")) := by
  simp only [DataSetCollection.hasSet_eq_isSome, DataSetCollection.getSet,
    DataSetCollection.insertInto, DataSetCollection.operate,
    DataSetCollection.operateUnarySet, DataSetCollection.cartesianProduct]
  cases hn : c.sets.findIdx? (fun s => s.name == n) <;>
    cases ha : c.sets.findIdx? (fun s => s.name == nameA) <;>
      cases hb : c.sets.findIdx? (fun s => s.name == nameB) <;>
        simp only [hn, ha, hb, Option.isSome_none, Option.isSome_some, resultOk,
          resultNotFound, resultUnsupported, Bool.not_false, Bool.not_true,
          Bool.and_false, Bool.false_and, Bool.and_true, Bool.true_and,
          Bool.or_true, Bool.true_or, Bool.or_false, Bool.false_or, and_true, true_and,
          and_self, eq_self_iff_true]
  all_goals {
    by_cases h1 : op = "union"
    · subst h1; simp [DataSetCollection.isBinaryKeyword, resultOk, resultNotFound,
        resultUnsupported, Except.map]
    · by_cases h2 : op = "intersection"
      · subst h2; simp [DataSetCollection.isBinaryKeyword, resultOk, resultNotFound,
          resultUnsupported, Except.map]
      · by_cases h3 : op = "difference"
        · subst h3; simp [DataSetCollection.isBinaryKeyword, resultOk, resultNotFound,
            resultUnsupported, Except.map]
        · by_cases h4 : op = "symmetric_difference"
          · subst h4; simp [DataSetCollection.isBinaryKeyword, resultOk, resultNotFound,
              resultUnsupported, Except.map]
          · by_cases h5 : op = "powerset"
            · subst h5; simp [DataSetCollection.isBinaryKeyword, resultOk, resultNotFound,
                resultUnsupported, Except.map]
            · simp [DataSetCollection.isBinaryKeyword, resultOk, resultNotFound,
                resultUnsupported, Except.map, h1, h2, h3, h4, h5]
  }
